import Mathlib

/-!
Shallow embedding of the progression and synchronization layer of the
GUIDED mentorship-platform client: the progression resolver and its call
sites, the access gate, the session store login operation, the mentor
verification tri-state, the signup form validation, and the optimistic
mutation handlers of the candidate workflow and mentor dashboards.

Remote calls are embedded as explicit outcome parameters: the client API
wrapper converts every failure (network error, timeout, non-2xx) into a
null result, so a remote call is modelled as an `Option` of its success
payload, or as a `FetchOutcome` when the distinct failure modes matter.
Event handlers become pure functions from the pre-call state and the
remote outcome to the post-call state; where a claim is about the moment
a remote call is still outstanding, the handler additionally exposes the
state at that suspension point, read off from the program order of the
source handler.
-/

namespace Guided

/-- The authenticated user returned by the backend
(interface User in the auth context). The role field holds one of
"candidate", "mentor", "admin". -/
structure User where
  id : String
  email : String
  name : String
  role : String
  verified : Bool
deriving DecidableEq, Repr

/-- Candidate progress flags returned by GET /candidate/status
(interface CandidateStatus in the API client). -/
structure CandidateStatus where
  status : String
  hasOnboarded : Bool
  hasMentor : Bool
  hasRoadmap : Bool
  candidateId : Option String
deriving DecidableEq, Repr

/-- Possible outcomes of one HTTP request issued through the central
fetch wrapper: a parsed success payload, a non-2xx response, a network
error, or hitting the abort timer. -/
inductive FetchOutcome (α : Type) where
  | ok (value : α)
  | httpError (statusCode : Nat) (detail : Option String)
  | networkError
  | timeout
deriving DecidableEq, Repr

/-- Embedding of apiFetch: a success payload is returned as such, and
every failure mode (non-2xx, thrown network error, abort-timer timeout)
is converted to null instead of throwing. -/
def apiFetch {α : Type} : FetchOutcome α → Option α
  | .ok v => some v
  | .httpError _ _ => none
  | .networkError => none
  | .timeout => none

/-- Embedding of smartRedirect from the login page, the post-login call
site of the progression resolver. Takes the role and verified flag of
the logged-in user and the result of getCandidateStatus (null on fetch
failure); the catch-all around the candidate branch also routes to
onboarding, which coincides with the null case here because the embedded
fetch never throws. Returns the destination route pushed to the router. -/
def smartRedirect (role : String) (verified : Bool)
    (status : Option CandidateStatus) : String :=
  if role = "mentor" then
    if verified then "/mentor/dashboard" else "/mentor/verification"
  else
    if status.elim false (fun s => s.hasMentor) then "/candidate/workflow"
    else if status.elim false (fun s => s.hasRoadmap) then "/candidate/mentors"
    else if status.elim false (fun s => s.hasOnboarded) then "/candidate/roadmap"
    else "/candidate/onboarding"

/-- Embedding of handleGetStarted from the landing page, the Get Started
call site of the progression resolver. A visitor with no session or a
non-candidate role is sent to signup; a candidate is routed from the
result of getCandidateStatus, with the catch routing to onboarding as in
`smartRedirect`. -/
def handleGetStarted (user : Option User)
    (status : Option CandidateStatus) : String :=
  match user with
  | none => "/signup"
  | some u =>
    if u.role ≠ "candidate" then "/signup"
    else
      if status.elim false (fun s => s.hasMentor) then "/candidate/workflow"
      else if status.elim false (fun s => s.hasRoadmap) then "/candidate/mentors"
      else if status.elim false (fun s => s.hasOnboarded) then "/candidate/roadmap"
      else "/candidate/onboarding"

/-- Embedding of handleDashboard from the landing page, the dashboard
shortcut call site of the progression resolver. A visitor with no
session is sent to login; a mentor to their dashboard or verification
screen; any other role is routed from the result of getCandidateStatus,
with the catch routing to onboarding as in `smartRedirect`. -/
def handleDashboard (user : Option User)
    (status : Option CandidateStatus) : String :=
  match user with
  | none => "/login"
  | some u =>
    if u.role = "mentor" then
      if u.verified then "/mentor/dashboard" else "/mentor/verification"
    else
      if status.elim false (fun s => s.hasMentor) then "/candidate/workflow"
      else if status.elim false (fun s => s.hasRoadmap) then "/candidate/mentors"
      else if status.elim false (fun s => s.hasOnboarded) then "/candidate/roadmap"
      else "/candidate/onboarding"

/-- A mentorship session as held in the candidate workflow dashboard
state (local interface Session of the workflow page). -/
structure Session where
  id : String
  title : String
  date : String
  time : String
  status : String
  mentor : String
  notes : Option String
  relative : Option String
deriving DecidableEq, Repr

/-- An action item as held in the candidate workflow dashboard state
(local interface ActionItem of the workflow page). -/
structure ActionItem where
  id : String
  title : String
  completed : Bool
  dueDate : String
deriving DecidableEq, Repr

/-- The aggregated stats record of the candidate workflow dashboard.
Counters are integers because the handlers add and subtract one without
a lower bound check. -/
structure WorkflowStats where
  completedSessions : Int
  totalSessions : Int
  completedActions : Int
  totalActions : Int
  completedSteps : Int
  totalSteps : Int
deriving DecidableEq, Repr

/-- The optimistic local apply of handleCompleteSession: the matching
session gets status completed and relative label Completed, and the
completedSessions counter is incremented. -/
def completeSessionApply (sessions : List Session) (stats : WorkflowStats)
    (sessionId : String) : List Session × WorkflowStats :=
  (sessions.map fun s =>
      if s.id = sessionId then
        { s with status := "completed", relative := some "Completed" }
      else s,
   { stats with completedSessions := stats.completedSessions + 1 })

/-- The failure revert of handleCompleteSession: the matching session
gets status upcoming and the completedSessions counter is decremented.
The relative field is not written here. -/
def completeSessionRevert (sessions : List Session) (stats : WorkflowStats)
    (sessionId : String) : List Session × WorkflowStats :=
  (sessions.map fun s =>
      if s.id = sessionId then { s with status := "upcoming" } else s,
   { stats with completedSessions := stats.completedSessions - 1 })

/-- Embedding of handleCompleteSession from the candidate workflow page,
as a function of the remote outcome of completeSession (null on any
failure, modelled by remoteOk = false): local apply, then on success the
applied state stands until the full reload of loadData (outside this
model), and on failure the revert runs on the applied state. -/
def handleCompleteSession (sessions : List Session) (stats : WorkflowStats)
    (sessionId : String) (remoteOk : Bool) : List Session × WorkflowStats :=
  let applied := completeSessionApply sessions stats sessionId
  if remoteOk then applied
  else completeSessionRevert applied.1 applied.2 sessionId

/-- The optimistic local apply of handleToggleAction: the matching
action item gets the new completed value, and the completedActions
counter moves by plus one when the new value is true and minus one when
it is false. -/
def toggleActionApply (items : List ActionItem) (stats : WorkflowStats)
    (itemId : String) (newCompleted : Bool) : List ActionItem × WorkflowStats :=
  (items.map fun a =>
      if a.id = itemId then { a with completed := newCompleted } else a,
   { stats with completedActions :=
      stats.completedActions + (if newCompleted then 1 else -1) })

/-- The failure revert of handleToggleAction: the matching action item
gets back the completed value it was invoked with, and the
completedActions counter moves by the opposite of the apply step. -/
def toggleActionRevert (items : List ActionItem) (stats : WorkflowStats)
    (itemId : String) (currentCompleted newCompleted : Bool) :
    List ActionItem × WorkflowStats :=
  (items.map fun a =>
      if a.id = itemId then { a with completed := currentCompleted } else a,
   { stats with completedActions :=
      stats.completedActions + (if newCompleted then -1 else 1) })

/-- Embedding of handleToggleAction from the candidate workflow page, as
a function of the remote outcome of toggleActionItem (null on any
failure, modelled by remoteOk = false): the new completed value is the
negation of the current one, the apply runs synchronously, and on
failure the revert runs on the applied state. -/
def handleToggleAction (items : List ActionItem) (stats : WorkflowStats)
    (itemId : String) (currentCompleted : Bool) (remoteOk : Bool) :
    List ActionItem × WorkflowStats :=
  let newCompleted := !currentCompleted
  let applied := toggleActionApply items stats itemId newCompleted
  if remoteOk then applied
  else toggleActionRevert applied.1 applied.2 itemId currentCompleted newCompleted

/-- A mentorship request as held in the mentor dashboard state. -/
structure MentorRequest where
  id : String
  candidateName : String
  candidateGoal : String
  experience : String
  status : String
  submittedAt : String
deriving DecidableEq, Repr

/-- Session details carried by a successful accept response. -/
structure AcceptSessionDetails where
  date : String
  time : String
  mentorName : String
  candidateName : String
deriving DecidableEq, Repr

/-- The success payload of POST /mentor/accept. -/
structure AcceptResponse where
  message : String
  calendarUrl : Option String
  sessionDetails : Option AcceptSessionDetails
deriving DecidableEq, Repr

/-- The calendar scheduling banner state set by handleAccept. -/
structure CalendarInfo where
  url : String
  date : String
  time : String
  candidateName : String
deriving DecidableEq, Repr

/-- Everything observable about one run of handleAccept: the request
list and window.open invocations while the remote call is outstanding,
and the request list, calendar banner state, and window.open invocations
after the remote call settles. -/
structure AcceptRun where
  requestsDuringCall : List MentorRequest
  windowOpensDuringCall : List String
  requests : List MentorRequest
  calendarInfo : Option CalendarInfo
  windowOpens : List String
deriving DecidableEq, Repr

/-- Embedding of handleAccept from the mentor dashboard, as a function
of the remote outcome of postMentorAccept (null on any failure). The
first statement of the source handler awaits the remote call, so the
request list at that suspension point is the input list and no
window.open has been invoked; afterwards, only on a non-null response is
the matching request marked accepted, and only a response carrying a
calendarUrl sets the banner and opens the url in a new tab. -/
def handleAccept (requests : List MentorRequest) (reqId : String)
    (remote : Option AcceptResponse) : AcceptRun :=
  { requestsDuringCall := requests
    windowOpensDuringCall := []
    requests :=
      match remote with
      | some _ => requests.map fun r =>
          if r.id = reqId then { r with status := "accepted" } else r
      | none => requests
    calendarInfo :=
      match remote with
      | some res =>
        match res.calendarUrl with
        | some url =>
          some { url := url,
                 date := (res.sessionDetails.map fun d => d.date).getD "",
                 time := (res.sessionDetails.map fun d => d.time).getD "",
                 candidateName :=
                   (res.sessionDetails.map fun d => d.candidateName).getD "" }
        | none => none
      | none => none
    windowOpens :=
      match remote with
      | some res =>
        match res.calendarUrl with
        | some url => [url]
        | none => []
      | none => [] }

/-- The request-list states of handleDecline from the mentor dashboard,
in program order: the first statement of the source handler awaits
postMentorDecline, so the first component is the list at that suspension
point (the input list, untouched), and the second is the list after the
remote call settles, where only a non-null response (remoteOk = true)
marks the matching request declined. -/
def handleDeclineStates (requests : List MentorRequest) (reqId : String)
    (remoteOk : Bool) : List MentorRequest × List MentorRequest :=
  (requests,
   if remoteOk then
     requests.map fun r =>
       if r.id = reqId then { r with status := "declined" } else r
   else requests)

/-- What the RouteGuard component renders: the centered loading spinner,
nothing (null), or the wrapped children. -/
inductive GuardRender where
  | loadingIndicator
  | nothingRendered
  | childrenRendered
deriving DecidableEq, Repr

/-- Embedding of the render path of RouteGuard: while loading it returns
the spinner; with no user, or a user whose role is not in allowedRoles,
it returns null; otherwise it returns the children. -/
def routeGuardRender (user : Option User) (isLoading : Bool)
    (allowedRoles : List String) : GuardRender :=
  if isLoading then .loadingIndicator
  else
    match user with
    | none => .nothingRendered
    | some u =>
      if allowedRoles.contains u.role then .childrenRendered
      else .nothingRendered

/-- Embedding of the redirect effect of RouteGuard: while loading it
does nothing; with no user it replaces the route with login; with a user
whose role is not in allowedRoles it replaces the route with that role
home (mentor dashboard, top-level home for admin, candidate workflow
otherwise); with an allowed role it does nothing. -/
def routeGuardRedirect (user : Option User) (isLoading : Bool)
    (allowedRoles : List String) : Option String :=
  if isLoading then none
  else
    match user with
    | none => some "/login"
    | some u =>
      if allowedRoles.contains u.role then none
      else if u.role = "mentor" then some "/mentor/dashboard"
      else if u.role = "admin" then some "/"
      else some "/candidate/workflow"

/-- The in-memory state owned by the auth context together with the
localStorage slot keyed guided_token. -/
structure AuthState where
  token : Option String
  user : Option User
  storedToken : Option String
deriving DecidableEq, Repr

/-- Possible outcomes of the POST /auth/login request as seen by the
login operation: an ok response carrying token and user, a non-ok
response carrying an optional detail message, or a thrown error (network
failure or an unparsable body). -/
inductive LoginOutcome where
  | ok (token : String) (user : User)
  | rejected (detail : Option String)
  | networkError
deriving DecidableEq, Repr

/-- The value the login and signup operations resolve with. -/
structure AuthResult where
  success : Bool
  error : Option String
  user : Option User
deriving DecidableEq, Repr

/-- A JavaScript or-else on an optional string: an absent or empty
string falls back to the given default. -/
def jsOr (s : Option String) (fallback : String) : String :=
  match s with
  | some v => if v = "" then fallback else v
  | none => fallback

/-- Embedding of the login operation of the auth context, as a function
of the pre-call state and the remote outcome. On an ok response the
token is persisted and token and user are set from the response and the
call resolves with success and the user; on a non-ok response or a
thrown error the call resolves with success false and an error string,
leaving the state untouched. The operation never throws: the whole body
is wrapped in a try with a catch returning the failure value. -/
def login (st : AuthState) (o : LoginOutcome) : AuthResult × AuthState :=
  match o with
  | .ok t u =>
      ({ success := true, error := none, user := some u },
       { token := some t, user := some u, storedToken := some t })
  | .rejected d =>
      ({ success := false, error := some (jsOr d "Login failed"), user := none }, st)
  | .networkError =>
      ({ success := false, error := some "Cannot connect to server", user := none }, st)

/-- The payload of GET /mentor/verification-status. -/
structure VerificationStatus where
  verified : Bool
  pending : Bool
  linkedinUrl : String
deriving DecidableEq, Repr

/-- Embedding of the status derivation in the load effect of the mentor
verification page: a non-null response yields verified when the verified
flag is set, else pending when the pending flag is set, else
unsubmitted; a null response (any fetch failure) yields unsubmitted. The
initial loading value is always overwritten once the fetch settles. -/
def verificationScreenState (data : Option VerificationStatus) : String :=
  match data with
  | some d =>
      if d.verified then "verified"
      else if d.pending then "pending"
      else "unsubmitted"
  | none => "unsubmitted"

/-- Everything observable about one run of handleSubmit on the signup
page: whether the signup operation was invoked, the route pushed (if
any), the error toast text (if any), and whether the success toast was
shown. -/
structure SignupSubmitRun where
  signupInvoked : Bool
  navigation : Option String
  toastError : Option String
  toastSuccess : Bool
deriving DecidableEq, Repr

/-- Embedding of handleSubmit from the signup page, as a function of the
form fields and of the result the signup operation would resolve with if
invoked. The three client-side validation checks run in source order and
each returns early with only an error toast; past validation, the signup
operation is invoked, and its result decides between the success toast
plus role-dependent navigation and an error toast. -/
def signupHandleSubmit (name email password role linkedinUrl : String)
    (remote : AuthResult) : SignupSubmitRun :=
  if name = "" ∨ email = "" ∨ password = "" then
    { signupInvoked := false, navigation := none,
      toastError := some "Please fill in all required fields",
      toastSuccess := false }
  else if password.length < 6 then
    { signupInvoked := false, navigation := none,
      toastError := some "Password must be at least 6 characters",
      toastSuccess := false }
  else if role = "mentor" ∧ linkedinUrl = "" then
    { signupInvoked := false, navigation := none,
      toastError := some "LinkedIn URL is required for mentors",
      toastSuccess := false }
  else if remote.success then
    { signupInvoked := true,
      navigation := some (if role = "mentor" then "/mentor/verification"
                          else "/candidate/onboarding"),
      toastError := none, toastSuccess := true }
  else
    { signupInvoked := true, navigation := none,
      toastError := some (jsOr remote.error "Signup failed"),
      toastSuccess := false }

/-- A concrete upcoming session, used as the input exhibiting that the
complete-session revert is not the exact inverse of the apply. -/
def sampleUpcomingSession : Session :=
  { id := "s3", title := "Portfolio Review", date := "2026-02-21",
    time := "10:00 AM", status := "upcoming", mentor := "Ananya Iyer",
    notes := none, relative := some "Tomorrow" }

/-- A concrete stats record for the workflow dashboard examples. -/
def sampleStats : WorkflowStats :=
  { completedSessions := 2, totalSessions := 4,
    completedActions := 2, totalActions := 5,
    completedSteps := 1, totalSteps := 5 }

/-- A concrete pending mentorship request for the mentor dashboard
examples. -/
def sampleRequest : MentorRequest :=
  { id := "req1", candidateName := "Arjun Mehta",
    candidateGoal := "Break into top tech companies as a frontend engineer",
    experience := "2 years", status := "pending", submittedAt := "2026-02-08" }

/-- A concrete action item that is not yet completed, for the toggle
examples. -/
def sampleActionItem : ActionItem :=
  { id := "a3", title := "Build REST API project with proper error handling",
    completed := false, dueDate := "2026-02-20" }

/-- A concrete candidate user for the resolver and gate examples. -/
def sampleCandidate : User :=
  { id := "u1", email := "candidate@guided.dev", name := "Arjun Mehta",
    role := "candidate", verified := false }

/-- A concrete candidate progress snapshot for the resolver examples. -/
def sampleStatus : CandidateStatus :=
  { status := "active", hasOnboarded := true, hasMentor := false,
    hasRoadmap := true, candidateId := some "c1" }

/-- C1: for every combination of the candidate progress flags, the
post-login smartRedirect, the landing Get Started handler, and the
landing dashboard shortcut route a candidate to the same single
destination, drawn from the workflow, mentor-discovery, roadmap, and
onboarding routes by first match in the priority order hasMentor,
hasRoadmap, hasOnboarded, none. -/
theorem resolver_call_sites_agree (u : User) (s : CandidateStatus)
    (h : u.role = "candidate") :
    handleGetStarted (some u) (some s) =
      smartRedirect u.role u.verified (some s) ∧
    handleDashboard (some u) (some s) =
      smartRedirect u.role u.verified (some s) ∧
    (s.hasMentor = true →
      smartRedirect u.role u.verified (some s) = "/candidate/workflow") ∧
    (s.hasMentor = false → s.hasRoadmap = true →
      smartRedirect u.role u.verified (some s) = "/candidate/mentors") ∧
    (s.hasMentor = false → s.hasRoadmap = false → s.hasOnboarded = true →
      smartRedirect u.role u.verified (some s) = "/candidate/roadmap") ∧
    (s.hasMentor = false → s.hasRoadmap = false → s.hasOnboarded = false →
      smartRedirect u.role u.verified (some s) = "/candidate/onboarding") ∧
    smartRedirect u.role u.verified (some s) ∈
      ["/candidate/workflow", "/candidate/mentors", "/candidate/roadmap",
       "/candidate/onboarding"] := by
  rcases s with ⟨sst, hOn, hMen, hRoad, cid⟩
  cases hOn <;> cases hMen <;> cases hRoad <;>
    simp [handleGetStarted, handleDashboard, smartRedirect, h]

/-- Witness for resolver_call_sites_agree at a concrete candidate and a
concrete progress snapshot. -/
theorem resolver_call_sites_agree_witness :
    handleGetStarted (some sampleCandidate) (some sampleStatus) =
      smartRedirect sampleCandidate.role sampleCandidate.verified
        (some sampleStatus) :=
  (resolver_call_sites_agree sampleCandidate sampleStatus (by decide)).1

/-- C7: when the progress-flag fetch fails for any reason (non-2xx
response, network error, timeout), the wrapper returns null instead of
throwing and the resolver routes any non-mentor to the onboarding
destination. -/
theorem fetch_failure_falls_back_to_onboarding
    (o : FetchOutcome CandidateStatus) (role : String) (verified : Bool)
    (hrole : role ≠ "mentor") (hfail : ∀ v, o ≠ FetchOutcome.ok v) :
    apiFetch o = none ∧
    smartRedirect role verified (apiFetch o) = "/candidate/onboarding" := by
  have hnone : apiFetch o = none := by
    cases o with
    | ok v => exact absurd rfl (hfail v)
    | httpError c d => rfl
    | networkError => rfl
    | timeout => rfl
  refine ⟨hnone, ?_⟩
  rw [hnone]
  simp [smartRedirect, hrole]

/-- Witness for fetch_failure_falls_back_to_onboarding at the timeout
outcome and the candidate role. -/
theorem fetch_failure_falls_back_to_onboarding_witness :
    apiFetch (FetchOutcome.timeout : FetchOutcome CandidateStatus) = none ∧
    smartRedirect "candidate" false
      (apiFetch (FetchOutcome.timeout : FetchOutcome CandidateStatus)) =
      "/candidate/onboarding" :=
  fetch_failure_falls_back_to_onboarding FetchOutcome.timeout "candidate" false
    (by decide) (fun v h => nomatch h)

/-- C2 counterexample: completing the session s3 and having the remote
call fail does not return the state to its pre-apply value, because the
relative label set to Completed by the optimistic apply is not restored
by the revert, even though status and counter are. -/
theorem complete_session_revert_not_exact_inverse :
    handleCompleteSession [sampleUpcomingSession] sampleStats "s3" false ≠
      ([sampleUpcomingSession], sampleStats) ∧
    ((handleCompleteSession [sampleUpcomingSession] sampleStats "s3" false).1.map
        fun s => s.relative) = [some "Completed"] ∧
    sampleUpcomingSession.relative = some "Tomorrow" := by
  refine ⟨by decide, by decide, by decide⟩

/-- C2 amended: when the remote complete-session call fails, the revert
restores the session status and the completedSessions counter exactly to
their pre-apply values without a full reload and leaves every other
session untouched, but the relative label of the targeted session
remains Completed instead of returning to its pre-apply value. -/
theorem complete_session_revert_restores_status_and_counter
    (sessions : List Session) (stats : WorkflowStats) (sid : String)
    (h : ∀ s ∈ sessions, s.id = sid → s.status = "upcoming") :
    handleCompleteSession sessions stats sid false =
      (sessions.map fun s =>
        if s.id = sid then { s with relative := some "Completed" } else s,
       stats) := by
  simp only [handleCompleteSession, completeSessionApply, completeSessionRevert,
    Bool.false_eq_true, if_false, List.map_map, Prod.mk.injEq]
  constructor
  · apply List.map_congr_left
    intro a ha
    have hst := h a ha
    obtain ⟨aid, atitle, adate, atime, astatus, amentor, anotes, arel⟩ := a
    by_cases hid : aid = sid
    · simp only [Function.comp_apply]
      simp only at hst
      simp [hid, hst hid]
    · simp [Function.comp_apply, hid]
  · obtain ⟨c1, c2, c3, c4, c5, c6⟩ := stats
    simp only [WorkflowStats.mk.injEq]
    refine ⟨by omega, trivial, trivial, trivial, trivial, trivial⟩

/-- Witness for complete_session_revert_restores_status_and_counter at
the concrete upcoming session s3. -/
theorem complete_session_revert_restores_witness :
    handleCompleteSession [sampleUpcomingSession] sampleStats "s3" false =
      ([{ sampleUpcomingSession with relative := some "Completed" }],
       sampleStats) := by
  have h := complete_session_revert_restores_status_and_counter
    [sampleUpcomingSession] sampleStats "s3" (by decide)
  simpa [sampleUpcomingSession] using h

/-- C3 counterexample: on the concrete pending request req1, the
in-memory status at the moment the remote decline call is outstanding is
still pending, not declined, whatever the outcome; and when the call
fails there is no state to revert because nothing was applied. So the
decline action does not follow the optimistic local-apply protocol. -/
theorem decline_not_optimistic :
    (handleDeclineStates [sampleRequest] "req1" true).1 ≠
      [{ sampleRequest with status := "declined" }] ∧
    (handleDeclineStates [sampleRequest] "req1" false).1 ≠
      [{ sampleRequest with status := "declined" }] ∧
    ((handleDeclineStates [sampleRequest] "req1" true).1.map
        fun r => r.status) = ["pending"] ∧
    ((handleDeclineStates [sampleRequest] "req1" false).2.map
        fun r => r.status) = ["pending"] := by
  refine ⟨by decide, by decide, by decide, by decide⟩

/-- C3 amended: the decline action is remote-first rather than
optimistic: the in-memory list is unchanged while the decline call is
outstanding; on failure it stays unchanged, so the request remains
pending; only a successful response marks the matching request declined,
and requests with another id are never touched. -/
theorem decline_remote_first (requests : List MentorRequest) (reqId : String)
    (remoteOk : Bool) :
    (handleDeclineStates requests reqId remoteOk).1 = requests ∧
    (remoteOk = false →
      (handleDeclineStates requests reqId remoteOk).2 = requests) ∧
    (remoteOk = true → ∀ r ∈ requests, r.id = reqId →
      { r with status := "declined" } ∈
        (handleDeclineStates requests reqId remoteOk).2) ∧
    (∀ r ∈ requests, r.id ≠ reqId →
      r ∈ (handleDeclineStates requests reqId remoteOk).2) := by
  refine ⟨rfl, ?_, ?_, ?_⟩
  · intro h
    subst h
    rfl
  · intro h r hr hid
    subst h
    simp only [handleDeclineStates, if_true]
    exact List.mem_map.mpr ⟨r, hr, by simp [hid]⟩
  · intro r hr hid
    cases remoteOk with
    | false => exact hr
    | true =>
      simp only [handleDeclineStates, if_true]
      exact List.mem_map.mpr ⟨r, hr, by simp [hid]⟩

/-- Witness for decline_remote_first on the concrete pending request
req1 with a successful remote outcome. -/
theorem decline_remote_first_witness :
    { sampleRequest with status := "declined" } ∈
      (handleDeclineStates [sampleRequest] "req1" true).2 :=
  (decline_remote_first [sampleRequest] "req1" true).2.2.1 rfl
    sampleRequest (by decide) (by decide)

/-- C4: the calendar side effect of the mentor accept action is never
invoked before the remote accept call resolves (no window.open precedes
the await), every url the handler opens comes from a successful response
carrying that calendarUrl, and on a failed remote call the request list
is untouched, so the request stays pending, and no banner is set and no
tab is opened. -/
theorem accept_side_effect_gated (requests : List MentorRequest)
    (reqId : String) (remote : Option AcceptResponse) :
    (handleAccept requests reqId remote).windowOpensDuringCall = [] ∧
    (∀ url ∈ (handleAccept requests reqId remote).windowOpens,
       ∃ res, remote = some res ∧ res.calendarUrl = some url) ∧
    (remote = none →
       (handleAccept requests reqId remote).requests = requests ∧
       (handleAccept requests reqId remote).windowOpens = [] ∧
       (handleAccept requests reqId remote).calendarInfo = none) := by
  refine ⟨rfl, ?_, ?_⟩
  · intro url hurl
    cases remote with
    | none => simp [handleAccept] at hurl
    | some res =>
      cases hcal : res.calendarUrl with
      | none => simp [handleAccept, hcal] at hurl
      | some u =>
        simp only [handleAccept, hcal, List.mem_singleton] at hurl
        exact ⟨res, rfl, by rw [hcal, hurl]⟩
  · intro h
    subst h
    exact ⟨rfl, rfl, rfl⟩

/-- Witness for accept_side_effect_gated on the concrete pending request
req1 with a failed remote outcome. -/
theorem accept_side_effect_gated_witness :
    (handleAccept [sampleRequest] "req1" none).requests = [sampleRequest] ∧
    (handleAccept [sampleRequest] "req1" none).windowOpens = [] ∧
    (handleAccept [sampleRequest] "req1" none).calendarInfo = none :=
  (accept_side_effect_gated [sampleRequest] "req1" none).2.2 rfl

/-- C5: toggling an action item that is not completed (so the handler is
invoked with currentCompleted false and computes the new value true)
synchronously marks every matching item completed and increments the
completedActions counter by exactly one, leaves items at positions with
another id untouched, and when the remote call then fails both the item
flag and the counter return exactly to their pre-toggle values. -/
theorem toggle_action_optimistic (items : List ActionItem)
    (stats : WorkflowStats) (itemId : String)
    (h : ∀ a ∈ items, a.id = itemId → a.completed = false) :
    (∀ a ∈ (toggleActionApply items stats itemId (!false)).1,
        a.id = itemId → a.completed = true) ∧
    (toggleActionApply items stats itemId (!false)).2 =
      { stats with completedActions := stats.completedActions + 1 } ∧
    (∀ i : Nat, (∀ a, items[i]? = some a → a.id ≠ itemId) →
        (toggleActionApply items stats itemId (!false)).1[i]? = items[i]?) ∧
    handleToggleAction items stats itemId false false = (items, stats) := by
  refine ⟨?_, ?_, ?_, ?_⟩
  · intro a ha hid
    obtain ⟨b, hb, hba⟩ := List.mem_map.mp ha
    by_cases hbid : b.id = itemId
    · rw [← hba]
      simp [hbid]
    · rw [← hba] at hid
      simp [hbid] at hid
  · simp [toggleActionApply]
  · intro i hi
    simp only [toggleActionApply, List.getElem?_map]
    cases hx : items[i]? with
    | none => rfl
    | some a => simp [hi a hx]
  · simp only [handleToggleAction, toggleActionApply, toggleActionRevert,
      Bool.not_false, Bool.false_eq_true, if_false, List.map_map,
      Prod.mk.injEq]
    constructor
    · have hpt : ∀ a ∈ items,
          ((fun a : ActionItem =>
              if a.id = itemId then { a with completed := false } else a)
            ((fun a : ActionItem =>
              if a.id = itemId then { a with completed := true } else a) a)) =
            a := by
        intro a ha
        have hc := h a ha
        obtain ⟨aid, atitle, acomp, adue⟩ := a
        by_cases hid : aid = itemId
        · simp only at hc
          simp [hid, hc hid]
        · simp [hid]
      calc items.map _ = items.map id := List.map_congr_left hpt
        _ = items := List.map_id items
    · obtain ⟨c1, c2, c3, c4, c5, c6⟩ := stats
      simp only [if_true, WorkflowStats.mk.injEq]
      refine ⟨trivial, trivial, by omega, trivial, trivial, trivial⟩

/-- Witness for toggle_action_optimistic at the concrete uncompleted
action item a3: the failed toggle round-trips to the original state. -/
theorem toggle_action_optimistic_witness :
    handleToggleAction [sampleActionItem] sampleStats "a3" false false =
      ([sampleActionItem], sampleStats) :=
  (toggle_action_optimistic [sampleActionItem] sampleStats "a3"
    (by decide)).2.2.2

/-- C6: the access gate is a three-state renderer: while loading it
shows the loading indicator and issues no redirect regardless of
identity; with no user it renders nothing and redirects to sign-in; with
a user whose role is outside allowedRoles it renders nothing and
redirects to that role home (mentor dashboard for mentors, top-level
home for admins, candidate workflow otherwise); and the children render
only in the authorized state: loading finished, a user present, and the
role allowed. -/
theorem route_guard_three_state (user : Option User)
    (allowedRoles : List String) :
    routeGuardRender user true allowedRoles = GuardRender.loadingIndicator ∧
    routeGuardRedirect user true allowedRoles = none ∧
    (routeGuardRender none false allowedRoles = GuardRender.nothingRendered ∧
      routeGuardRedirect none false allowedRoles = some "/login") ∧
    (∀ u : User, allowedRoles.contains u.role = false →
        routeGuardRender (some u) false allowedRoles =
          GuardRender.nothingRendered ∧
        routeGuardRedirect (some u) false allowedRoles =
          (if u.role = "mentor" then some "/mentor/dashboard"
           else if u.role = "admin" then some "/"
           else some "/candidate/workflow")) ∧
    (∀ loading : Bool,
        routeGuardRender user loading allowedRoles =
          GuardRender.childrenRendered →
        loading = false ∧
          ∃ u, user = some u ∧ allowedRoles.contains u.role = true) := by
  refine ⟨rfl, rfl, ⟨rfl, rfl⟩, ?_, ?_⟩
  · intro u hrole
    have hmem : u.role ∉ allowedRoles := by simpa using hrole
    constructor
    · simp [routeGuardRender, hmem]
    · simp [routeGuardRedirect, hmem]
  · intro loading hrender
    cases loading with
    | true => simp [routeGuardRender] at hrender
    | false =>
      cases user with
      | none => simp [routeGuardRender] at hrender
      | some u =>
        cases hc : allowedRoles.contains u.role with
        | true => exact ⟨rfl, u, rfl, hc⟩
        | false =>
          simp [routeGuardRender, hc] at hrender
          exact absurd hrender (by simpa using hc)

/-- Witness for route_guard_three_state: a candidate on a mentor-only
page renders nothing and is redirected to the candidate workflow. -/
theorem route_guard_three_state_witness :
    routeGuardRender (some sampleCandidate) false ["mentor"] =
      GuardRender.nothingRendered ∧
    routeGuardRedirect (some sampleCandidate) false ["mentor"] =
      some "/candidate/workflow" := by
  have h := (route_guard_three_state (some sampleCandidate) ["mentor"]).2.2.2.1
    sampleCandidate (by decide)
  simpa [sampleCandidate] using h

/-- C8: the login operation is total on every remote outcome (it never
throws) and never partially updates session state: when it resolves with
success the persisted token, the in-memory token, and the identity are
all set together from the response and the resolved user is returned;
when it resolves with failure it returns an error string and the state
is exactly what it was before the call; and in every case the state is
either untouched or fully set from one response. -/
theorem login_atomic_update (st : AuthState) (o : LoginOutcome) :
    ((login st o).1.success = true →
       ∃ t u, o = LoginOutcome.ok t u ∧ (login st o).1.user = some u ∧
         (login st o).2 =
           { token := some t, user := some u, storedToken := some t }) ∧
    ((login st o).1.success = false →
       (login st o).2 = st ∧ ∃ e, (login st o).1.error = some e) ∧
    ((login st o).2 = st ∨
       ∃ t u, (login st o).2 =
         { token := some t, user := some u, storedToken := some t }) := by
  cases o with
  | ok t u =>
    exact ⟨fun _ => ⟨t, u, rfl, rfl, rfl⟩,
           fun h => by simp [login] at h,
           Or.inr ⟨t, u, rfl⟩⟩
  | rejected d =>
    exact ⟨fun h => by simp [login] at h,
           fun _ => ⟨rfl, ⟨jsOr d "Login failed", rfl⟩⟩,
           Or.inl rfl⟩
  | networkError =>
    exact ⟨fun h => by simp [login] at h,
           fun _ => ⟨rfl, ⟨"Cannot connect to server", rfl⟩⟩,
           Or.inl rfl⟩

/-- Witness for login_atomic_update: a network failure against an
empty session leaves the state untouched and yields an error string. -/
theorem login_atomic_update_witness :
    (login { token := none, user := none, storedToken := none }
        LoginOutcome.networkError).2 =
      { token := none, user := none, storedToken := none } ∧
    ∃ e, (login { token := none, user := none, storedToken := none }
        LoginOutcome.networkError).1.error = some e :=
  (login_atomic_update
    { token := none, user := none, storedToken := none }
    LoginOutcome.networkError).2.1 rfl

/-- C9: the mentor verification screen state is derived from the two
backend booleans with verified taking priority over pending, a null
status fetch falls back to the submission form state, and the screen
never remains in the loading state once the fetch has settled. -/
theorem verification_tri_state (data : Option VerificationStatus) :
    verificationScreenState data ≠ "loading" ∧
    (data = none → verificationScreenState data = "unsubmitted") ∧
    (∀ d, data = some d → d.verified = true →
        verificationScreenState data = "verified") ∧
    (∀ d, data = some d → d.verified = false → d.pending = true →
        verificationScreenState data = "pending") ∧
    (∀ d, data = some d → d.verified = false → d.pending = false →
        verificationScreenState data = "unsubmitted") := by
  refine ⟨?_, ?_, ?_, ?_, ?_⟩
  · rcases data with _ | d
    · simp [verificationScreenState]
    · obtain ⟨v, p, l⟩ := d
      cases v <;> cases p <;> simp [verificationScreenState]
  · intro h
    subst h
    rfl
  · intro d hd hv
    subst hd
    simp [verificationScreenState, hv]
  · intro d hd hv hp
    subst hd
    simp [verificationScreenState, hv, hp]
  · intro d hd hv hp
    subst hd
    simp [verificationScreenState, hv, hp]

/-- Witness for verification_tri_state: a response with both flags set
resolves to verified (the verified flag wins over pending). -/
theorem verification_tri_state_witness :
    verificationScreenState
      (some { verified := true, pending := true,
              linkedinUrl := "https://linkedin.com/in/sample" }) =
      "verified" :=
  (verification_tri_state
    (some { verified := true, pending := true,
            linkedinUrl := "https://linkedin.com/in/sample" })).2.2.1
    _ rfl rfl

/-- C10: when client-side validation fails on the signup form (empty
name, email, or password, a password shorter than six characters, or the
mentor role with an empty LinkedIn URL), the signup operation is never
invoked, no navigation occurs, the success toast is not shown, and an
error notification is produced. -/
theorem signup_validation_gates (name email password role linkedinUrl : String)
    (remote : AuthResult)
    (h : name = "" ∨ email = "" ∨ password = "" ∨ password.length < 6 ∨
         (role = "mentor" ∧ linkedinUrl = "")) :
    (signupHandleSubmit name email password role linkedinUrl
        remote).signupInvoked = false ∧
    (signupHandleSubmit name email password role linkedinUrl
        remote).navigation = none ∧
    (∃ e, (signupHandleSubmit name email password role linkedinUrl
        remote).toastError = some e) ∧
    (signupHandleSubmit name email password role linkedinUrl
        remote).toastSuccess = false := by
  unfold signupHandleSubmit
  split_ifs with h1 h2 h3 h4
  · exact ⟨rfl, rfl, ⟨_, rfl⟩, rfl⟩
  · exact ⟨rfl, rfl, ⟨_, rfl⟩, rfl⟩
  · exact ⟨rfl, rfl, ⟨_, rfl⟩, rfl⟩
  · exfalso
    rcases h with h | h | h | h | h
    · exact h1 (Or.inl h)
    · exact h1 (Or.inr (Or.inl h))
    · exact h1 (Or.inr (Or.inr h))
    · exact h2 h
    · exact h3 h
  · exfalso
    rcases h with h | h | h | h | h
    · exact h1 (Or.inl h)
    · exact h1 (Or.inr (Or.inl h))
    · exact h1 (Or.inr (Or.inr h))
    · exact h2 h
    · exact h3 h

/-- Witness for signup_validation_gates: an empty name blocks the
submission even though the remote call would have succeeded. -/
theorem signup_validation_gates_witness :
    (signupHandleSubmit "" "a@b.dev" "longenough" "candidate" ""
        { success := true, error := none, user := none }).signupInvoked =
      false ∧
    (signupHandleSubmit "" "a@b.dev" "longenough" "candidate" ""
        { success := true, error := none, user := none }).navigation =
      none ∧
    (∃ e, (signupHandleSubmit "" "a@b.dev" "longenough" "candidate" ""
        { success := true, error := none, user := none }).toastError =
      some e) ∧
    (signupHandleSubmit "" "a@b.dev" "longenough" "candidate" ""
        { success := true, error := none, user := none }).toastSuccess =
      false :=
  signup_validation_gates "" "a@b.dev" "longenough" "candidate" ""
    { success := true, error := none, user := none } (Or.inl rfl)

end Guided
